import Mathlib

/-!
Shallow embedding of the Paypack payment integration (an Express server
`server.ts` plus the `PaypackService` class in `paypack.service.ts`).

Modelling conventions:
* Node `Buffer`s (the raw webhook body and signature buffers) are lists of
  bytes, `List Nat`.
* JS numbers are `Int`; wall-clock instants and Unix token-expiry stamps are
  `Int` seconds (the source stores `new Date(expires * 1000)` and compares
  with `isBefore(now, addSeconds(expiresAt, -60))`, which in seconds is
  `now < expires - 60`).
* The Node `crypto` HMAC-SHA256/base64 primitive is an external library, not
  repository code; it is modelled as an explicit function parameter
  `hm : List Nat → List Nat` mapping the raw body bytes to the bytes of the
  base64-encoded digest, with the webhook secret already applied.
* Fallible code returns `Except ApiError α`; a thrown `ApiError` is the
  `.error` case.
* The Prisma store and the `paymentSockets` map are explicit state:
  a list of payment records and an association list `paymentId ↦ socketId`
  (a JS `Map` keeps keys unique, so deleting a key is modelled by filtering
  all entries with that key).
-/

namespace Paypack

/-- Mirror of the `ApiError` class: `statusCode`, `message`, `code`,
`details` (null modelled as `none`). -/
structure ApiError where
  statusCode : Nat
  message : String
  code : String
  details : Option String
deriving DecidableEq, Repr

/-- Decidable equality for `Except`, needed to evaluate concrete runs. -/
instance {ε α : Type} [DecidableEq ε] [DecidableEq α] : DecidableEq (Except ε α) := fun a b =>
  match a, b with
  | .ok x, .ok y =>
    if h : x = y then isTrue (by rw [h])
    else isFalse (fun hh => h (Except.ok.inj hh))
  | .ok _, .error _ => isFalse (fun hh => Except.noConfusion hh)
  | .error _, .ok _ => isFalse (fun hh => Except.noConfusion hh)
  | .error x, .error y =>
    if h : x = y then isTrue (by rw [h])
    else isFalse (fun hh => h (Except.error.inj hh))

/-- The shape of an axios failure as consumed by `handleApiError`:
whether `axios.isAxiosError(error)` holds, the optional upstream response
status and body fields, and the error's own message. -/
structure AxiosFailure where
  isAxiosError : Bool
  respStatus : Option Nat
  dataMessage : Option String
  dataError : Option String
  message : String
  respData : Option String
deriving DecidableEq, Repr

/-- JS `a || b` for an optional string (`undefined` and the empty string are
falsy). -/
def jsOrStr (a : Option String) (b : String) : String :=
  match a with
  | some s => if s = "" then b else s
  | none => b

/-- JS `a || b` for an optional number (`undefined` and `0` are falsy). -/
def jsOrNat (a : Option Nat) (b : Nat) : Nat :=
  match a with
  | some m => if m = 0 then b else m
  | none => b

/-- Mirror of `PaypackService.handleApiError`.  The source method always
throws; this model returns the thrown `ApiError`. -/
def handleApiError (e : AxiosFailure) : ApiError :=
  if e.isAxiosError then
    ⟨jsOrNat e.respStatus 500,
     "Payment Provider Error: " ++ jsOrStr e.dataMessage (jsOrStr e.dataError e.message),
     "PAYPACK_API_ERROR", e.respData⟩
  else
    ⟨500, if e.message = "" then "An unknown error occurred." else e.message,
     "UNKNOWN_PAYPACK_ERROR", none⟩

/-- Mirror of the `PaypackAuthResponse` interface. -/
structure PaypackAuthResponse where
  access : String
  refresh : String
  expires : Int
deriving DecidableEq, Repr

/-- The two token-cache fields of `PaypackService`
(`accessToken`, `tokenExpiresAt`). -/
structure TokenCache where
  accessToken : Option String
  tokenExpiresAt : Option Int
deriving DecidableEq, Repr

/-- The cached-token validity test of `getValidAccessToken`:
`this.accessToken && this.tokenExpiresAt && isBefore(new Date(), addSeconds(this.tokenExpiresAt, -60))`
(an empty access token string is falsy in JS). -/
def tokenCacheValid (tc : TokenCache) (now : Int) : Bool :=
  match tc.accessToken, tc.tokenExpiresAt with
  | some a, some e => decide (a ≠ "") && decide (now < e - 60)
  | _, _ => false

/-- The non-axios `Error` thrown when the auth response lacks an access
token, as it reaches `handleApiError`. -/
def authNoAccessFailure : AxiosFailure :=
  ⟨false, none, none, none, "Authentication response did not include an access token.", none⟩

/-- The value the `authenticate()` promise settles with, as a function of the
network outcome of `POST /auth/agents/authorize`: the access token on
success, the `ApiError` rethrown by the catch block otherwise (a response
with a falsy `access` field raises inside the try and is wrapped the same
way). -/
def authSettled (r : Except AxiosFailure PaypackAuthResponse) : Except ApiError String :=
  match r with
  | .ok resp =>
    if resp.access = "" then .error (handleApiError authNoAccessFailure)
    else .ok resp.access
  | .error f => .error (handleApiError f)

/-- The token cache after `authenticate()` completes: the fresh token and
expiry on success, cleared (`null`/`null`) on any failure. -/
def authCacheAfter (r : Except AxiosFailure PaypackAuthResponse) : TokenCache :=
  match r with
  | .ok resp =>
    if resp.access = "" then ⟨none, none⟩
    else ⟨some resp.access, some resp.expires⟩
  | .error _ => ⟨none, none⟩

/-- Sequential (single-caller) semantics of `getValidAccessToken`: with no
refresh in flight, return the cached token if still valid, otherwise run one
`authenticate()` call.  Returns the result, the new cache, and the number of
authenticate network calls issued. -/
def getValidAccessTokenSeq (tc : TokenCache) (now : Int)
    (authNet : Except AxiosFailure PaypackAuthResponse) :
    Except ApiError String × TokenCache × Nat :=
  if tokenCacheValid tc now then (.ok (tc.accessToken.getD ""), tc, 0)
  else (authSettled authNet, authCacheAfter authNet, 1)

/-- Mirror of the phone validation regex of `cashin`: `/^07\d{8}$/`. -/
def phoneOk (s : String) : Bool :=
  match s.toList with
  | '0' :: '7' :: rest => rest.length == 8 && rest.all Char.isDigit
  | _ => false

/-- Mirror of the `CashinParams` interface. -/
structure CashinParams where
  number : String
  amount : Int
deriving DecidableEq, Repr

/-- Mirror of the `CashinResponse` interface (the fixed `kind: "CASHIN"`
field is omitted). -/
structure CashinResponse where
  ref : String
  status : String
  amount : Int
  provider : String
  created_at : String
deriving DecidableEq, Repr

/-- Count of outbound network calls performed during one `cashin` run. -/
structure NetLog where
  authCalls : Nat
  cashinCalls : Nat
deriving DecidableEq, Repr

/-- The `ApiError` thrown by `cashin` for an amount below 100. -/
def invalidAmountError : ApiError :=
  ⟨400, "Payment amount must be at least 100 RWF.", "INVALID_AMOUNT", none⟩

/-- The `ApiError` thrown by `cashin` for a malformed phone number. -/
def invalidPhoneError : ApiError :=
  ⟨400, "Invalid Rwandan phone number format. Must be 07XXXXXXXX.", "INVALID_PHONE", none⟩

/-- Mirror of `PaypackService.cashin`: validate amount, then phone format,
then obtain a token, then issue the cash-in POST.  `authNet` and `cashinNet`
are the outcomes the network would deliver to the respective calls; the
`NetLog` component counts how many of those calls were actually issued. -/
def cashin (p : CashinParams) (tc : TokenCache) (now : Int)
    (authNet : Except AxiosFailure PaypackAuthResponse)
    (cashinNet : Except AxiosFailure CashinResponse) :
    Except ApiError CashinResponse × TokenCache × NetLog :=
  if p.amount < 100 then (.error invalidAmountError, tc, ⟨0, 0⟩)
  else if phoneOk p.number = false then (.error invalidPhoneError, tc, ⟨0, 0⟩)
  else
    match getValidAccessTokenSeq tc now authNet with
    | (.error e, tc2, a) => (.error e, tc2, ⟨a, 0⟩)
    | (.ok _, tc2, a) =>
      match cashinNet with
      | .ok resp => (.ok resp, tc2, ⟨a, 1⟩)
      | .error f => (.error (handleApiError f), tc2, ⟨a, 1⟩)

/-- JS truthiness of the signature header value (`undefined` and the empty
string are falsy), on the header's bytes. -/
def sigTruthy : Option (List Nat) → Bool
  | none => false
  | some bs => !bs.isEmpty

/-- Mirror of `PaypackService.verifyWebhookSignature`.  A missing (or empty)
header throws 403 before the try block.  Inside the try block the expected
signature is the base64 HMAC-SHA256 digest of the raw body (`hm rawBody`),
and a length mismatch or byte mismatch throws 401; the surrounding catch
rewraps any exception of the try block into the 500
`SIGNATURE_VERIFICATION_FAILED` error.  Only `.ok true` is ever returned. -/
def verifyWebhookSignature (hm : List Nat → List Nat) (signature : Option (List Nat))
    (rawBody : List Nat) : Except ApiError Bool :=
  if sigTruthy signature = false then
    .error ⟨403, "Missing webhook signature.", "INVALID_SIGNATURE", none⟩
  else
    let sigBuffer := signature.getD []
    let expectedSigBuffer := hm rawBody
    let tryBlock : Except ApiError Bool :=
      if sigBuffer.length != expectedSigBuffer.length || sigBuffer != expectedSigBuffer then
        .error ⟨401, "Invalid webhook signature.", "INVALID_SIGNATURE", none⟩
      else .ok true
    match tryBlock with
    | .ok b => .ok b
    | .error _ =>
      .error ⟨500, "Could not verify webhook signature.", "SIGNATURE_VERIFICATION_FAILED", none⟩

/-- The persisted payment status strings (`status` defaults to PENDING). -/
inductive PStatus where
  | PENDING
  | SUCCESSFUL
  | FAILED
deriving DecidableEq, Repr

/-- A row of the Prisma `Payment` table. -/
structure Payment where
  id : String
  amount : Int
  status : PStatus
  paypackRef : Option String
deriving DecidableEq, Repr

/-- The parsed `data` object of a webhook body (`{ ref, status, ... }`). -/
structure WebhookData where
  ref : String
  status : String
deriving DecidableEq, Repr

/-- Server state touched by the routes: the payment table and the
`paymentSockets` registry (`paymentId ↦ socketId`). -/
structure AppState where
  payments : List Payment
  sockets : List (String × String)
deriving DecidableEq, Repr

/-- `prisma.payment.findFirst({ where: { paypackRef: ref } })`. -/
def findByRef (ps : List Payment) (ref : String) : Option Payment :=
  ps.find? (fun p => p.paypackRef == some ref)

/-- `prisma.payment.findFirst({ where: { id } })` (id is the primary key). -/
def findById (ps : List Payment) (pid : String) : Option Payment :=
  ps.find? (fun p => p.id == pid)

/-- `prisma.payment.update({ where: { id }, data: { status } })`. -/
def setStatusById (ps : List Payment) (pid : String) (st : PStatus) : List Payment :=
  ps.map (fun p => if p.id = pid then ⟨p.id, p.amount, st, p.paypackRef⟩ else p)

/-- `prisma.payment.update({ where: { id }, data: { paypackRef } })`. -/
def setRefById (ps : List Payment) (pid : String) (ref : String) : List Payment :=
  ps.map (fun p => if p.id = pid then ⟨p.id, p.amount, p.status, some ref⟩ else p)

/-- `paymentSockets.get(paymentId)`. -/
def lookupSocket (m : List (String × String)) (k : String) : Option String :=
  (m.find? (fun e => e.1 == k)).map (fun e => e.2)

/-- `paymentSockets.delete(paymentId)`; a JS `Map` holds each key once, so
removal is modelled by dropping every entry with that key. -/
def deleteSocket (m : List (String × String)) (k : String) : List (String × String) :=
  m.filter (fun e => !(e.1 == k))

/-- The status mapping of the webhook route:
`data.status === "successful" ? "SUCCESSFUL" : "FAILED"`. -/
def mapStatus (s : String) : PStatus :=
  if s = "successful" then .SUCCESSFUL else .FAILED

/-- HTTP outcomes of `POST /api/webhook`. -/
inductive WebhookResp where
  | invalidSig401
  | notFound404
  | processed200
  | error500
deriving DecidableEq, Repr

/-- Observable actions of the webhook route, in execution order: a store
write of a payment's status, and a socket.io `payment:update` emit. -/
inductive TraceEv where
  | write (pid : String) (st : PStatus)
  | notify (sid : String) (st : PStatus)
deriving DecidableEq, Repr

/-- Mirror of the `POST /api/webhook` handler: verify the signature (a throw
is caught by the route and answered with 500; a `false` return would be
answered with 401), read `req.body.data` (`payload`; a missing `data` object
makes `data.ref` throw, hence 500), look up the payment by `paypackRef`,
write the mapped terminal status, then, if a socket is registered for the
payment, emit the update and delete the registration. -/
def webhookRoute (hm : List Nat → List Nat) (sig : Option (List Nat)) (raw : List Nat)
    (payload : Option WebhookData) (s : AppState) :
    WebhookResp × AppState × List TraceEv :=
  match verifyWebhookSignature hm sig raw with
  | .error _ => (.error500, s, [])
  | .ok false => (.invalidSig401, s, [])
  | .ok true =>
    match payload with
    | none => (.error500, s, [])
    | some d =>
      match findByRef s.payments d.ref with
      | none => (.notFound404, s, [])
      | some payment =>
        let newStatus := mapStatus d.status
        let payments1 := setStatusById s.payments payment.id newStatus
        match lookupSocket s.sockets payment.id with
        | some sid =>
          (.processed200, ⟨payments1, deleteSocket s.sockets payment.id⟩,
            [TraceEv.write payment.id newStatus, TraceEv.notify sid newStatus])
        | none => (.processed200, ⟨payments1, s.sockets⟩, [TraceEv.write payment.id newStatus])

/-- HTTP outcomes of `POST /api/initiate-payment`. -/
inductive InitiateResp where
  | badRequest400
  | ok200 (paymentId : String)
  | serverError500
deriving DecidableEq, Repr

/-- HTTP status code carried by each initiate-payment outcome. -/
def initiateRespStatus : InitiateResp → Nat
  | .badRequest400 => 400
  | .ok200 _ => 200
  | .serverError500 => 500

/-- JS truthiness of an optional string request field. -/
def jsTruthyStr : Option String → Bool
  | none => false
  | some s => !(s == "")

/-- JS truthiness of an optional numeric request field (`0` is falsy). -/
def jsTruthyInt : Option Int → Bool
  | none => false
  | some m => !(m == 0)

/-- Mirror of the `POST /api/initiate-payment` handler: reject missing
fields with 400, create a PENDING payment (with fresh id `newId`), call
`paypackService.cashin`, store the returned `ref` and answer 200 — or, on
any thrown error, answer 500. -/
def initiatePaymentRoute (phoneNumber : Option String) (amount : Option Int)
    (newId : String) (s : AppState) (tc : TokenCache) (now : Int)
    (authNet : Except AxiosFailure PaypackAuthResponse)
    (cashinNet : Except AxiosFailure CashinResponse) :
    InitiateResp × AppState × TokenCache :=
  if !(jsTruthyStr phoneNumber) || !(jsTruthyInt amount) then (.badRequest400, s, tc)
  else
    let amt := amount.getD 0
    let num := phoneNumber.getD ""
    let payments0 := s.payments ++ [⟨newId, amt, .PENDING, none⟩]
    match cashin ⟨num, amt⟩ tc now authNet cashinNet with
    | (.ok resp, tc2, _) =>
      (.ok200 newId, ⟨setRefById payments0 newId resp.ref, s.sockets⟩, tc2)
    | (.error _, tc2, _) => (.serverError500, ⟨payments0, s.sockets⟩, tc2)

/-!
Interleaving model of `getValidAccessToken` under concurrent callers.

Node runs each task synchronously between `await` points, so one atomic step
covers everything a caller executes up to its next suspension:

* `enter i` — caller `i` runs the body of `getValidAccessToken` from entry to
  its first suspension: if a refresh is in flight (`isRefreshingToken` set
  and `tokenRefreshPromise` non-null) it starts awaiting that same promise;
  otherwise, if the cached token is valid, it finishes with it immediately;
  otherwise it becomes the leader: it sets the flag, creates the promise,
  and synchronously runs `authenticate()` up to its first `await`, which
  issues the one outbound authentication request.
* `net r` — the pending authentication request completes with outcome `r`:
  `authenticate()` resumes, updates the token cache, and settles the promise.
* `resume i` — caller `i`'s `await` on a settled promise resumes: it finishes
  with the settled value; the leader additionally runs its `finally` block,
  clearing `isRefreshingToken` and `tokenRefreshPromise`.
-/

/-- The per-caller control state of one `getValidAccessToken` invocation. -/
inductive CallerPhase where
  | idle
  | waitLeader (pid : Nat)
  | waitFollower (pid : Nat)
  | finished (r : Except ApiError String)
deriving DecidableEq

/-- Global state: the service fields, the promise store (a settled promise
holds its value), each caller's phase, the in-flight network call (promise id
of the authentication it will settle), and the count of outbound
authentication requests issued. -/
structure Sys (n : Nat) where
  cache : TokenCache
  isRefreshingToken : Bool
  tokenRefreshPromise : Option Nat
  promises : List (Option (Except ApiError String))
  callers : Fin n → CallerPhase
  netPending : Option Nat
  authCalls : Nat

/-- Pointwise update of the caller-phase map. -/
def updFn {n : Nat} (f : Fin n → CallerPhase) (i : Fin n) (v : CallerPhase) :
    Fin n → CallerPhase :=
  fun j => if j = i then v else f j

/-- Scheduler events. -/
inductive Ev (n : Nat) where
  | enter (i : Fin n)
  | net (r : Except AxiosFailure PaypackAuthResponse)
  | resume (i : Fin n)

/-- Semantics of `enter i` (a no-op unless caller `i` is idle). -/
def enterStep {n : Nat} (now : Int) (s : Sys n) (i : Fin n) : Sys n :=
  match s.callers i with
  | .idle =>
    match s.isRefreshingToken, s.tokenRefreshPromise with
    | true, some pid =>
      ⟨s.cache, s.isRefreshingToken, s.tokenRefreshPromise, s.promises,
       updFn s.callers i (.waitFollower pid), s.netPending, s.authCalls⟩
    | _, _ =>
      if tokenCacheValid s.cache now then
        ⟨s.cache, s.isRefreshingToken, s.tokenRefreshPromise, s.promises,
         updFn s.callers i (.finished (.ok (s.cache.accessToken.getD ""))),
         s.netPending, s.authCalls⟩
      else
        ⟨s.cache, true, some s.promises.length, s.promises ++ [none],
         updFn s.callers i (.waitLeader s.promises.length),
         some s.promises.length, s.authCalls + 1⟩
  | _ => s

/-- Semantics of `net r` (a no-op unless an authentication call is
pending). -/
def netStep {n : Nat} (s : Sys n) (r : Except AxiosFailure PaypackAuthResponse) : Sys n :=
  match s.netPending with
  | none => s
  | some pid =>
    ⟨authCacheAfter r, s.isRefreshingToken, s.tokenRefreshPromise,
     s.promises.set pid (some (authSettled r)), s.callers, none, s.authCalls⟩

/-- Semantics of `resume i` (a no-op unless caller `i` awaits a settled
promise). -/
def resumeStep {n : Nat} (s : Sys n) (i : Fin n) : Sys n :=
  match s.callers i with
  | .waitFollower pid =>
    match s.promises.getD pid none with
    | some v =>
      ⟨s.cache, s.isRefreshingToken, s.tokenRefreshPromise, s.promises,
       updFn s.callers i (.finished v), s.netPending, s.authCalls⟩
    | none => s
  | .waitLeader pid =>
    match s.promises.getD pid none with
    | some v =>
      ⟨s.cache, false, none, s.promises,
       updFn s.callers i (.finished v), s.netPending, s.authCalls⟩
    | none => s
  | _ => s

/-- One scheduler step. -/
def step {n : Nat} (now : Int) (s : Sys n) : Ev n → Sys n
  | .enter i => enterStep now s i
  | .net r => netStep s r
  | .resume i => resumeStep s i

/-- Run a schedule of events. -/
def run {n : Nat} (now : Int) (s : Sys n) (evs : List (Ev n)) : Sys n :=
  evs.foldl (step now) s

/-- Initial state: no cached token, no refresh in flight, all callers idle,
no authentication requests issued. -/
def initSys (n : Nat) : Sys n :=
  ⟨⟨none, none⟩, false, none, [], fun _ => .idle, none, 0⟩

/-- State after the leader `l` and the callers in `done` have entered, all
before the network responds. -/
def afterEnters {n : Nat} (l : Fin n) (done : List (Fin n)) : Sys n :=
  ⟨⟨none, none⟩, true, some 0, [none],
   fun i => if i = l then .waitLeader 0 else if i ∈ done then .waitFollower 0 else .idle,
   some 0, 1⟩

/-- State once the single authentication call has completed with outcome `r`
and the callers in `rdone` have resumed (every caller entered during the
cycle). -/
def afterResumes {n : Nat} (l : Fin n) (rdone : List (Fin n))
    (r : Except AxiosFailure PaypackAuthResponse) : Sys n :=
  ⟨authCacheAfter r,
   if l ∈ rdone then false else true,
   if l ∈ rdone then none else some 0,
   [some (authSettled r)],
   fun i => if i ∈ rdone then .finished (authSettled r)
            else if i = l then .waitLeader 0 else .waitFollower 0,
   none, 1⟩

/-! Helper lemmas about the signature verifier. -/

/-- Setting a position of a list to a genuinely different value changes the
list. -/
theorem set_ne_of_ne (l : List Nat) (i v : Nat) (hi : i < l.length)
    (hv : v ≠ l.get ⟨i, hi⟩) : l.set i v ≠ l := by
  intro h
  apply hv
  have h1 : (l.set i v)[i]? = some v := List.getElem?_set_self (by simpa using hi)
  have h2 : l[i]? = some (l.get ⟨i, hi⟩) := by
    rw [List.getElem?_eq_getElem hi]
    simp [List.get_eq_getElem]
  rw [h] at h1
  rw [h1] at h2
  exact Option.some.inj h2

/-- A present, non-empty signature that differs from the expected digest is
rejected with the catch-rewrapped 500 error. -/
theorem verify_mismatch_error500 (hm : List Nat → List Nat) (sig raw : List Nat)
    (hsig : sig ≠ []) (hmm : sig ≠ hm raw) :
    verifyWebhookSignature hm (some sig) raw =
      .error ⟨500, "Could not verify webhook signature.", "SIGNATURE_VERIFICATION_FAILED", none⟩ := by
  have ht : sigTruthy (some sig) = true := by
    simp [sigTruthy, List.isEmpty_iff, hsig]
  have hcond : (sig.length != (hm raw).length || sig != hm raw) = true := by
    simp [hmm]
  simp [verifyWebhookSignature, ht, hcond]

/-- The verifier returns `.ok true` exactly when the signature equals the
expected digest (assuming, as for any real HMAC-base64 digest, that the
digest is non-empty). -/
theorem verify_ok_true_iff (hm : List Nat → List Nat) (sig raw : List Nat)
    (hne : hm raw ≠ []) :
    verifyWebhookSignature hm (some sig) raw = .ok true ↔ sig = hm raw := by
  constructor
  · intro h
    by_contra hmm
    by_cases hempty : sig = []
    · subst hempty
      simp [verifyWebhookSignature, sigTruthy] at h
    · rw [verify_mismatch_error500 hm sig raw hempty hmm] at h
      cases h
  · intro h
    subst h
    have ht : sigTruthy (some (hm raw)) = true := by
      simp [sigTruthy, List.isEmpty_iff, hne]
    simp [verifyWebhookSignature, ht]

/-- The verifier never returns `false`: every failing input throws. -/
theorem verify_never_ok_false (hm : List Nat → List Nat) (sig : Option (List Nat))
    (raw : List Nat) : verifyWebhookSignature hm sig raw ≠ .ok false := by
  by_cases h1 : sigTruthy sig = false
  · simp [verifyWebhookSignature, h1]
  · by_cases h2 : ((sig.getD []).length != (hm raw).length || sig.getD [] != hm raw) = true
    · simp [verifyWebhookSignature, h1, h2]
    · simp [verifyWebhookSignature, h1, h2]

/-! Helper lemmas about the token-manager interleaving machine. -/

/-- Entering a caller that is not idle is a no-op. -/
theorem enterStep_not_idle {n : Nat} (now : Int) (s : Sys n) (j : Fin n)
    (h : s.callers j ≠ .idle) : enterStep now s j = s := by
  unfold enterStep
  cases hc : s.callers j with
  | idle => exact absurd hc h
  | waitLeader pid => rfl
  | waitFollower pid => rfl
  | finished r => rfl

/-- An idle caller entering while a refresh is in flight joins that refresh's
promise. -/
theorem enterStep_joins {n : Nat} (now : Int) (s : Sys n) (j : Fin n) (pid : Nat)
    (hidle : s.callers j = .idle) (href : s.isRefreshingToken = true)
    (hprom : s.tokenRefreshPromise = some pid) :
    enterStep now s j = ⟨s.cache, s.isRefreshingToken, s.tokenRefreshPromise, s.promises,
      updFn s.callers j (.waitFollower pid), s.netPending, s.authCalls⟩ := by
  unfold enterStep
  rw [hidle, href, hprom]

/-- Resuming a finished caller is a no-op. -/
theorem resumeStep_finished_noop {n : Nat} (s : Sys n) (j : Fin n)
    (v : Except ApiError String) (h : s.callers j = .finished v) : resumeStep s j = s := by
  unfold resumeStep
  rw [h]

/-- A follower whose promise has settled resumes with the settled value. -/
theorem resumeStep_follower {n : Nat} (s : Sys n) (j : Fin n) (pid : Nat)
    (v : Except ApiError String)
    (hc : s.callers j = .waitFollower pid) (hp : s.promises.getD pid none = some v) :
    resumeStep s j = ⟨s.cache, s.isRefreshingToken, s.tokenRefreshPromise, s.promises,
      updFn s.callers j (.finished v), s.netPending, s.authCalls⟩ := by
  simp only [resumeStep, hc, hp]

/-- The leader whose promise has settled resumes with the settled value and
runs its finally block, clearing the refresh flag and the promise field. -/
theorem resumeStep_leader {n : Nat} (s : Sys n) (j : Fin n) (pid : Nat)
    (v : Except ApiError String)
    (hc : s.callers j = .waitLeader pid) (hp : s.promises.getD pid none = some v) :
    resumeStep s j = ⟨s.cache, false, none, s.promises,
      updFn s.callers j (.finished v), s.netPending, s.authCalls⟩ := by
  simp only [resumeStep, hc, hp]

/-- The very first entry becomes the leader and issues the one
authentication call. -/
theorem enterStep_initSys {n : Nat} (now : Int) (l : Fin n) :
    enterStep now (initSys n) l = afterEnters l [l] := by
  have hc : updFn (fun _ : Fin n => CallerPhase.idle) l (.waitLeader 0)
      = fun i : Fin n => if i = l then CallerPhase.waitLeader 0
          else if i ∈ [l] then CallerPhase.waitFollower 0 else CallerPhase.idle := by
    funext j
    by_cases h : j = l <;> simp [updFn, h]
  unfold enterStep initSys afterEnters
  simp only []
  rw [← hc]
  rw [show tokenCacheValid ⟨none, none⟩ now = false from rfl]
  simp only [Bool.false_eq_true, if_false]
  rfl

/-- Recording an already-recorded entry does not change the abstract
state. -/
theorem afterEnters_append_mem {n : Nat} (l : Fin n) (done : List (Fin n)) (j : Fin n)
    (hj : j ∈ done) : afterEnters l done = afterEnters l (done ++ [j]) := by
  unfold afterEnters
  congr 1
  funext k
  by_cases hk1 : k = l
  · simp [hk1]
  · by_cases hk2 : k ∈ done
    · simp [hk1, hk2]
    · have hk3 : ¬ k ∈ done ++ [j] := by
        intro hk
        rcases List.mem_append.mp hk with h | h
        · exact hk2 h
        · exact hk2 (List.mem_singleton.mp h ▸ hj)
      simp [hk1, hk2, hk3]

/-- Any entry processed while the leader's refresh is in flight preserves the
characterized state. -/
theorem enterStep_afterEnters {n : Nat} (now : Int) (l : Fin n) (done : List (Fin n))
    (hl : l ∈ done) (j : Fin n) :
    enterStep now (afterEnters l done) j = afterEnters l (done ++ [j]) := by
  by_cases hj : j ∈ done
  · have hne : (afterEnters l done).callers j ≠ .idle := by
      by_cases h : j = l <;> simp [afterEnters, h, hj]
    rw [enterStep_not_idle now _ j hne]
    exact afterEnters_append_mem l done j hj
  · have hjl : j ≠ l := fun h => hj (h ▸ hl)
    have hidle : (afterEnters l done).callers j = .idle := by
      simp [afterEnters, hjl, hj]
    rw [enterStep_joins now _ j 0 hidle rfl rfl]
    unfold afterEnters
    congr 1
    funext k
    unfold updFn
    by_cases hk : k = j
    · subst hk
      simp [hjl, hj]
    · by_cases hkl : k = l
      · simp [hk, hkl, Ne.symm hjl]
      · by_cases hkd : k ∈ done
        · simp [hk, hkl, hkd, List.mem_append]
        · have hk3 : ¬ k ∈ done ++ [j] := by
            intro hkm
            rcases List.mem_append.mp hkm with h | h
            · exact hkd h
            · exact hk (List.mem_singleton.mp h)
          simp [hk, hkl, hkd, hk3]

/-- Processing any sequence of entries from the post-leader state keeps the
characterized state, accumulating the entered callers. -/
theorem run_enters {n : Nat} (now : Int) (l : Fin n) :
    ∀ (rest done : List (Fin n)), l ∈ done →
      run now (afterEnters l done) (rest.map Ev.enter) = afterEnters l (done ++ rest) := by
  intro rest
  induction rest with
  | nil =>
    intro done _
    simp [run]
  | cons j rest ih =>
    intro done hl
    simp only [List.map_cons, run, List.foldl_cons]
    rw [show step now (afterEnters l done) (Ev.enter j) = afterEnters l (done ++ [j]) from
      enterStep_afterEnters now l done hl j]
    have h := ih (done ++ [j]) (List.mem_append.mpr (Or.inl hl))
    simp only [run] at h
    rw [h, List.append_assoc]
    rfl

/-- The single network completion settles the one promise and caches (or
clears) the token; with every caller entered, the state is the zero-resumed
characterized state. -/
theorem netStep_afterEnters {n : Nat} (l : Fin n) (done : List (Fin n))
    (r : Except AxiosFailure PaypackAuthResponse) (hall : ∀ i : Fin n, i ∈ done) :
    netStep (afterEnters l done) r = afterResumes l [] r := by
  unfold netStep afterEnters afterResumes
  simp only [List.not_mem_nil, if_false]
  congr 1
  funext k
  by_cases hk : k = l
  · simp [hk]
  · simp [hk, hall k]

/-- Recording an already-recorded resumption does not change the abstract
state. -/
theorem afterResumes_append_mem {n : Nat} (l : Fin n) (rdone : List (Fin n))
    (r : Except AxiosFailure PaypackAuthResponse) (j : Fin n) (hj : j ∈ rdone) :
    afterResumes l rdone r = afterResumes l (rdone ++ [j]) r := by
  have hmem : ∀ k : Fin n, (k ∈ rdone ++ [j]) ↔ k ∈ rdone := by
    intro k
    constructor
    · intro hk
      rcases List.mem_append.mp hk with h | h
      · exact h
      · exact List.mem_singleton.mp h ▸ hj
    · intro hk
      exact List.mem_append.mpr (Or.inl hk)
  unfold afterResumes
  congr 1
  · rw [if_congr (hmem l) rfl rfl]
  · rw [if_congr (hmem l) rfl rfl]
  · funext k
    rw [if_congr (hmem k) rfl rfl]

/-- Any resumption processed after the promise settled preserves the
characterized state, accumulating the resumed callers. -/
theorem resumeStep_afterResumes {n : Nat} (l : Fin n) (rdone : List (Fin n))
    (r : Except AxiosFailure PaypackAuthResponse) (j : Fin n) :
    resumeStep (afterResumes l rdone r) j = afterResumes l (rdone ++ [j]) r := by
  by_cases hj : j ∈ rdone
  · rw [resumeStep_finished_noop _ j (authSettled r) (by simp [afterResumes, hj])]
    exact afterResumes_append_mem l rdone r j hj
  · by_cases hjl : j = l
    · subst hjl
      have hc : (afterResumes j rdone r).callers j = .waitLeader 0 := by
        simp [afterResumes, hj]
      rw [resumeStep_leader _ j 0 (authSettled r) hc rfl]
      unfold afterResumes
      congr 1
      · simp [List.mem_append]
      · simp [List.mem_append]
      · funext k
        unfold updFn
        by_cases hk : k = j
        · subst hk
          simp [List.mem_append]
        · by_cases hkd : k ∈ rdone
          · simp [hk, hkd, List.mem_append]
          · have hk3 : ¬ k ∈ rdone ++ [j] := by
              intro hkm
              rcases List.mem_append.mp hkm with h | h
              · exact hkd h
              · exact hk (List.mem_singleton.mp h)
            simp [hk, hkd, hk3]
    · have hc : (afterResumes l rdone r).callers j = .waitFollower 0 := by
        simp [afterResumes, hj, hjl]
      rw [resumeStep_follower _ j 0 (authSettled r) hc rfl]
      unfold afterResumes
      congr 1
      · have : ¬ l ∈ rdone ++ [j] ↔ ¬ l ∈ rdone := by
          constructor
          · intro h hl
            exact h (List.mem_append.mpr (Or.inl hl))
          · intro h hl
            rcases List.mem_append.mp hl with hh | hh
            · exact h hh
            · exact hjl (List.mem_singleton.mp hh).symm
        by_cases hl : l ∈ rdone <;> simp [hl, List.mem_append, Ne.symm hjl]
      · by_cases hl : l ∈ rdone <;> simp [hl, List.mem_append, Ne.symm hjl]
      · funext k
        unfold updFn
        by_cases hk : k = j
        · subst hk
          simp [List.mem_append]
        · by_cases hkd : k ∈ rdone
          · simp [hk, hkd, List.mem_append]
          · have hk3 : ¬ k ∈ rdone ++ [j] := by
              intro hkm
              rcases List.mem_append.mp hkm with h | h
              · exact hkd h
              · exact hk (List.mem_singleton.mp h)
            simp [hk, hkd, hk3]

/-- Processing any sequence of resumptions accumulates finished callers. -/
theorem run_resumes {n : Nat} (now : Int) (l : Fin n)
    (r : Except AxiosFailure PaypackAuthResponse) :
    ∀ (rs rdone : List (Fin n)),
      run now (afterResumes l rdone r) (rs.map Ev.resume)
        = afterResumes l (rdone ++ rs) r := by
  intro rs
  induction rs with
  | nil =>
    intro rdone
    simp [run]
  | cons j rs ih =>
    intro rdone
    simp only [List.map_cons, run, List.foldl_cons]
    rw [show step now (afterResumes l rdone r) (Ev.resume j) = afterResumes l (rdone ++ [j]) r
      from resumeStep_afterResumes l rdone r j]
    have h := ih (rdone ++ [j])
    simp only [run] at h
    rw [h, List.append_assoc]
    rfl

/-! Helper lemmas about the store and the webhook route. -/

/-- A status write preserves `paypackRef`, so lookup by reference commutes
with it. -/
theorem find?_setStatusById_ref (ps : List Payment) (pid : String) (st : PStatus)
    (ref : String) :
    findByRef (setStatusById ps pid st) ref =
      (findByRef ps ref).map
        (fun p => if p.id = pid then ⟨p.id, p.amount, st, p.paypackRef⟩ else p) := by
  unfold findByRef setStatusById
  rw [List.find?_map]
  have hpred : ((fun p : Payment => p.paypackRef == some ref) ∘ fun p =>
      if p.id = pid then (⟨p.id, p.amount, st, p.paypackRef⟩ : Payment) else p)
      = fun p : Payment => p.paypackRef == some ref := by
    funext p
    by_cases h : p.id = pid <;> simp [h]
  rw [hpred]

/-- A status write preserves `id`, so lookup by id commutes with it. -/
theorem findById_setStatusById (ps : List Payment) (pid : String) (st : PStatus)
    (pid0 : String) :
    findById (setStatusById ps pid st) pid0 =
      (findById ps pid0).map
        (fun p => if p.id = pid then ⟨p.id, p.amount, st, p.paypackRef⟩ else p) := by
  unfold findById setStatusById
  rw [List.find?_map]
  have hpred : ((fun p : Payment => p.id == pid0) ∘ fun p =>
      if p.id = pid then (⟨p.id, p.amount, st, p.paypackRef⟩ : Payment) else p)
      = fun p : Payment => p.id == pid0 := by
    funext p
    by_cases h : p.id = pid <;> simp [h]
  rw [hpred]

/-- After deleting a key from the socket registry, looking it up yields
nothing. -/
theorem lookupSocket_deleteSocket (m : List (String × String)) (k : String) :
    lookupSocket (deleteSocket m k) k = none := by
  unfold lookupSocket deleteSocket
  induction m with
  | nil => rfl
  | cons e rest ih =>
    by_cases h : e.1 = k
    · simp [List.filter_cons, h]
    · simp [List.filter_cons, h, List.find?_cons]

/-- Re-writing the same status to the same payment is idempotent on the
table. -/
theorem setStatusById_idem (ps : List Payment) (pid : String) (st : PStatus) :
    setStatusById (setStatusById ps pid st) pid st = setStatusById ps pid st := by
  unfold setStatusById
  rw [List.map_map]
  congr 1
  funext p
  by_cases h : p.id = pid <;> simp [h]

/-- After writing status `st` to a payment present in the table, lookup by
its id finds a record carrying status `st`. -/
theorem findById_after_set (ps : List Payment) (p : Payment) (st : PStatus)
    (hmem : p ∈ ps) :
    ∃ q : Payment, findById (setStatusById ps p.id st) p.id = some q ∧ q.status = st := by
  have hsome : (findById ps p.id).isSome := by
    apply List.find?_isSome.mpr
    exact ⟨p, hmem, by simp⟩
  obtain ⟨q0, hq0⟩ := Option.isSome_iff_exists.mp hsome
  have hid : q0.id = p.id := by
    have h := List.find?_some hq0
    simpa using h
  refine ⟨⟨q0.id, q0.amount, st, q0.paypackRef⟩, ?_, rfl⟩
  rw [findById_setStatusById, hq0]
  simp [hid]

/-- On a verified webhook whose reference resolves, the route's post-state
table is exactly the unconditional status write of the mapped status. -/
theorem webhookRoute_state_on_found (hm : List Nat → List Nat) (sig : Option (List Nat))
    (raw : List Nat) (d : WebhookData) (s : AppState) (p : Payment)
    (hver : verifyWebhookSignature hm sig raw = .ok true)
    (hfind : findByRef s.payments d.ref = some p) :
    (webhookRoute hm sig raw (some d) s).2.1.payments
      = setStatusById s.payments p.id (mapStatus d.status) := by
  cases hs2 : lookupSocket s.sockets p.id <;> simp [webhookRoute, hver, hfind, hs2]

/-- Writing a `paypackRef` never changes any payment's status. -/
theorem setRefById_status (ps : List Payment) (pid ref : String) (i : Nat) :
    ((setRefById ps pid ref)[i]?).map Payment.status = (ps[i]?).map Payment.status := by
  unfold setRefById
  rw [List.getElem?_map, Option.map_map]
  have hfun : (Payment.status ∘ fun p : Payment =>
      if p.id = pid then (⟨p.id, p.amount, p.status, some ref⟩ : Payment) else p)
      = Payment.status := by
    funext p
    by_cases h : p.id = pid <;> simp [h]
  rw [hfun]

/-- Appending a PENDING record changes no existing status and adds only
PENDING. -/
theorem append_pending_status (ps : List Payment) (x : Payment) (i : Nat)
    (hx : x.status = .PENDING) :
    ((ps ++ [x])[i]?).map Payment.status = (ps[i]?).map Payment.status
    ∨ (ps[i]? = none ∧ ((ps ++ [x])[i]?).map Payment.status = some .PENDING) := by
  by_cases hi : i < ps.length
  · left
    rw [List.getElem?_append, if_pos hi]
  · by_cases hieq : i = ps.length
    · right
      refine ⟨List.getElem?_eq_none (by omega), ?_⟩
      rw [List.getElem?_append, if_neg (by omega)]
      subst hieq
      simp [hx]
    · left
      rw [List.getElem?_append, if_neg (by omega)]
      have h1 : ps[i]? = none := List.getElem?_eq_none (by omega)
      have h2 : ([x])[i - ps.length]? = none := by
        apply List.getElem?_eq_none
        simp
        omega
      rw [h1, h2]

/-- Validation failures in `cashin` reject the request with a 400
`ApiError` before any network call. -/
theorem cashin_invalid_input (p : CashinParams) (tc : TokenCache) (now : Int)
    (authNet : Except AxiosFailure PaypackAuthResponse)
    (cashinNet : Except AxiosFailure CashinResponse)
    (hbad : p.amount < 100 ∨ phoneOk p.number = false) :
    ∃ e : ApiError,
      cashin p tc now authNet cashinNet = (.error e, tc, ⟨0, 0⟩)
      ∧ e.statusCode = 400
      ∧ (e.code = "INVALID_AMOUNT" ∨ e.code = "INVALID_PHONE") := by
  by_cases hamt : p.amount < 100
  · exact ⟨invalidAmountError, by simp [cashin, hamt], rfl, Or.inl rfl⟩
  · rcases hbad with h | h
    · exact absurd h hamt
    · exact ⟨invalidPhoneError, by simp [cashin, hamt, h], rfl, Or.inr rfl⟩

/-! Claim theorems. -/

/-- C1: single-flight token refresh.  For any number of callers that all
enter `getValidAccessToken` while no valid token is cached and before the
authentication network call completes (in any arrival order), and then all
resume (in any order) after the promise settles, exactly one outbound
authentication call is issued and every caller finishes with the same
resulting token or the same resulting failure, namely the settled value of
the one shared refresh promise. -/
theorem c1_token_refresh_single_flight (n : Nat) (now : Int) (l : Fin n)
    (pre post : List (Fin n)) (r : Except AxiosFailure PaypackAuthResponse)
    (hcov : ∀ i : Fin n, i ∈ l :: pre) (hcov2 : ∀ i : Fin n, i ∈ post) :
    (run now (initSys n)
        ((l :: pre).map Ev.enter ++ Ev.net r :: post.map Ev.resume)).authCalls = 1
    ∧ ∀ i : Fin n,
        (run now (initSys n)
            ((l :: pre).map Ev.enter ++ Ev.net r :: post.map Ev.resume)).callers i
          = .finished (authSettled r) := by
  have h1 : run now (initSys n) ((l :: pre).map Ev.enter) = afterEnters l (l :: pre) := by
    simp only [List.map_cons, run, List.foldl_cons]
    rw [show step now (initSys n) (Ev.enter l) = afterEnters l [l] from
      enterStep_initSys now l]
    have h := run_enters now l pre [l] (List.mem_singleton.mpr rfl)
    simp only [run] at h
    rw [h]
    rfl
  have h2 : run now (initSys n) ((l :: pre).map Ev.enter ++ Ev.net r :: post.map Ev.resume)
      = afterResumes l post r := by
    unfold run
    rw [List.foldl_append]
    have h1b := h1
    unfold run at h1b
    rw [h1b]
    rw [List.foldl_cons]
    rw [show step now (afterEnters l (l :: pre)) (Ev.net r) = afterResumes l [] r from
      netStep_afterEnters l (l :: pre) r hcov]
    have h := run_resumes now l r post []
    simp only [run] at h
    rw [h]
    rfl
  rw [h2]
  refine ⟨rfl, ?_⟩
  intro i
  simp [afterResumes, hcov2 i]

/-- Witness for C1: two callers, both entering before the network responds,
one authentication call, both finish with the same token. -/
theorem c1_witness :
    (run 0 (initSys 2) ((((0 : Fin 2) :: [(1 : Fin 2)]).map Ev.enter
        ++ Ev.net (.ok ⟨"tok", "r", 1000⟩)
          :: ([(0 : Fin 2), (1 : Fin 2)]).map Ev.resume))).authCalls = 1
    ∧ ∀ i : Fin 2,
        (run 0 (initSys 2) ((((0 : Fin 2) :: [(1 : Fin 2)]).map Ev.enter
            ++ Ev.net (.ok ⟨"tok", "r", 1000⟩)
              :: ([(0 : Fin 2), (1 : Fin 2)]).map Ev.resume))).callers i
          = .finished (authSettled (.ok ⟨"tok", "r", 1000⟩)) :=
  c1_token_refresh_single_flight 2 0 0 [1] [0, 1] (.ok ⟨"tok", "r", 1000⟩)
    (by decide) (by decide)

/-- C4: a `cashin` call with an amount below the minimum threshold (100), or
with a phone number not matching `07` followed by eight digits, fails with a
`ValidationError` (a 400 `ApiError` coded `INVALID_AMOUNT` or
`INVALID_PHONE`), the token cache is untouched, and no network call — neither
authenticate nor cash-in — is performed. -/
theorem c4_cashin_validation_no_network (p : CashinParams) (tc : TokenCache) (now : Int)
    (authNet : Except AxiosFailure PaypackAuthResponse)
    (cashinNet : Except AxiosFailure CashinResponse)
    (hbad : p.amount < 100 ∨ phoneOk p.number = false) :
    ∃ e : ApiError,
      cashin p tc now authNet cashinNet = (.error e, tc, ⟨0, 0⟩)
      ∧ e.statusCode = 400
      ∧ (e.code = "INVALID_AMOUNT" ∨ e.code = "INVALID_PHONE") :=
  cashin_invalid_input p tc now authNet cashinNet hbad

/-- Witness for C4 at a concrete undersized amount. -/
theorem c4_witness :
    (50 : Int) < 100
    ∧ ∃ e : ApiError,
        cashin ⟨"0781234567", 50⟩ ⟨none, none⟩ 0
            (.error ⟨false, none, none, none, "x", none⟩)
            (.error ⟨false, none, none, none, "x", none⟩)
          = (.error e, ⟨none, none⟩, ⟨0, 0⟩)
        ∧ e.statusCode = 400
        ∧ (e.code = "INVALID_AMOUNT" ∨ e.code = "INVALID_PHONE") :=
  ⟨by decide,
   c4_cashin_validation_no_network ⟨"0781234567", 50⟩ ⟨none, none⟩ 0
     (.error ⟨false, none, none, none, "x", none⟩)
     (.error ⟨false, none, none, none, "x", none⟩) (Or.inl (by decide))⟩

/-- C5 counterexample: an initiate request with a well-formed phone number
but an amount below the minimum (50) is answered with the generic 500
internal-server-error response, not a 4xx client error — the route's catch
maps every initiation failure to 500. -/
theorem c5_counterexample :
    (initiatePaymentRoute (some "0781234567") (some 50) "p1" ⟨[], []⟩ ⟨none, none⟩ 0
        (.ok ⟨"tok", "r", 1000⟩) (.ok ⟨"ref1", "pending", 50, "mtn", "t"⟩)).1
      = .serverError500
    ∧ initiateRespStatus .serverError500 = 500 := by
  constructor <;> rfl

/-- C5 amended: an initiate request whose input fails validation (amount
below minimum or malformed phone number) is rejected, but the error surfaced
to the caller is the route's generic HTTP 500 internal error; the underlying
service-level `ValidationError` does carry a 4xx (400) status code, which the
route discards. -/
theorem c5_amended_validation_surfaced_500 (pn : String) (amt : Int) (newId : String)
    (s : AppState) (tc : TokenCache) (now : Int)
    (authNet : Except AxiosFailure PaypackAuthResponse)
    (cashinNet : Except AxiosFailure CashinResponse)
    (hpn : pn ≠ "") (hamt : amt ≠ 0)
    (hbad : amt < 100 ∨ phoneOk pn = false) :
    (initiatePaymentRoute (some pn) (some amt) newId s tc now authNet cashinNet).1
      = .serverError500
    ∧ ∃ e : ApiError,
        (cashin ⟨pn, amt⟩ tc now authNet cashinNet).1 = .error e ∧ e.statusCode = 400 := by
  obtain ⟨e, he, he400, _⟩ := cashin_invalid_input ⟨pn, amt⟩ tc now authNet cashinNet hbad
  have hcond : (!(jsTruthyStr (some pn)) || !(jsTruthyInt (some amt))) = false := by
    simp [jsTruthyStr, jsTruthyInt, hpn, hamt]
  refine ⟨?_, e, by rw [he], he400⟩
  simp [initiatePaymentRoute, hcond, he]

/-- Witness for the amended C5 at a concrete undersized amount. -/
theorem c5_amended_witness :
    (initiatePaymentRoute (some "0781234567") (some 50) "p2" ⟨[], []⟩ ⟨none, none⟩ 0
        (.ok ⟨"tok", "r", 1000⟩) (.ok ⟨"ref1", "pending", 50, "mtn", "t"⟩)).1
      = .serverError500
    ∧ ∃ e : ApiError,
        (cashin ⟨"0781234567", 50⟩ ⟨none, none⟩ 0 (.ok ⟨"tok", "r", 1000⟩)
            (.ok ⟨"ref1", "pending", 50, "mtn", "t"⟩)).1 = .error e
        ∧ e.statusCode = 400 :=
  c5_amended_validation_surfaced_500 "0781234567" 50 "p2" ⟨[], []⟩ ⟨none, none⟩ 0
    (.ok ⟨"tok", "r", 1000⟩) (.ok ⟨"ref1", "pending", 50, "mtn", "t"⟩)
    (by decide) (by decide) (Or.inl (by decide))

/-- C3 counterexample: a payment already in the terminal state SUCCESSFUL is
transitioned to the different terminal state FAILED by a later verified
webhook carrying upstream status "rejected" — the route writes the mapped
status unconditionally, so a transition out of a terminal state does occur,
refuting the claim as stated. -/
theorem c3_counterexample :
    findById [⟨"p1", 500, .SUCCESSFUL, some "abc123"⟩] "p1"
      = some ⟨"p1", 500, .SUCCESSFUL, some "abc123"⟩
    ∧ findById (webhookRoute (fun _ => [1]) (some [1]) []
        (some ⟨"abc123", "rejected"⟩)
        ⟨[⟨"p1", 500, .SUCCESSFUL, some "abc123"⟩], []⟩).2.1.payments "p1"
      = some ⟨"p1", 500, .FAILED, some "abc123"⟩ := by
  constructor <;> rfl

/-- C3 amended: the only status-writing operation is webhook processing and
it writes only terminal statuses: after any execution of the webhook route,
every payment either keeps exactly its previous record or carries the mapped
terminal status of the webhook (never PENDING), while the initiate route
leaves every existing status unchanged and only adds a fresh PENDING
record.  The webhook write is unguarded by the current status, so a payment
already in a terminal state moves to the other terminal state when a later
webhook for its reference carries a different upstream status; a same-status
webhook merely re-applies it. -/
theorem c3_amended_only_terminal_writes (hm : List Nat → List Nat)
    (sig : Option (List Nat)) (raw : List Nat) (payload : Option WebhookData)
    (s : AppState) (i : Nat) :
    (((webhookRoute hm sig raw payload s).2.1.payments[i]? = s.payments[i]?)
    ∨ ∃ d : WebhookData, payload = some d
        ∧ ((webhookRoute hm sig raw payload s).2.1.payments[i]?).map Payment.status
            = some (mapStatus d.status)
        ∧ mapStatus d.status ≠ .PENDING)
    ∧ ∀ (pn : Option String) (amt : Option Int) (newId : String) (tc : TokenCache)
        (now2 : Int) (an : Except AxiosFailure PaypackAuthResponse)
        (cn : Except AxiosFailure CashinResponse),
        ((initiatePaymentRoute pn amt newId s tc now2 an cn).2.1.payments[i]?).map
            Payment.status = (s.payments[i]?).map Payment.status
        ∨ (s.payments[i]? = none
           ∧ ((initiatePaymentRoute pn amt newId s tc now2 an cn).2.1.payments[i]?).map
                Payment.status = some PStatus.PENDING) := by
  constructor
  case right =>
    intro pn amt newId tc now2 an cn
    simp only [initiatePaymentRoute]
    by_cases hcond : (!(jsTruthyStr pn) || !(jsTruthyInt amt)) = true
    · rw [if_pos hcond]
      left
      rfl
    · rw [if_neg hcond]
      rcases hcc : cashin ⟨pn.getD "", amt.getD 0⟩ tc now2 an cn with ⟨res, tc2, lg⟩
      cases res with
      | ok resp =>
        rw [setRefById_status]
        exact append_pending_status s.payments ⟨newId, amt.getD 0, .PENDING, none⟩ i rfl
      | error e =>
        exact append_pending_status s.payments ⟨newId, amt.getD 0, .PENDING, none⟩ i rfl
  case left =>
  cases hv : verifyWebhookSignature hm sig raw with
  | error e => left; simp [webhookRoute, hv]
  | ok b =>
    cases b with
    | false => left; simp [webhookRoute, hv]
    | true =>
      cases payload with
      | none => left; simp [webhookRoute, hv]
      | some d =>
        cases hf : findByRef s.payments d.ref with
        | none => left; simp [webhookRoute, hv, hf]
        | some p =>
          have hpay := webhookRoute_state_on_found hm sig raw d s p hv hf
          rw [hpay]
          unfold setStatusById
          rw [List.getElem?_map]
          cases hq : s.payments[i]? with
          | none => left; rfl
          | some q =>
            by_cases hid : q.id = p.id
            · right
              refine ⟨d, rfl, by simp [hid], ?_⟩
              by_cases hsucc : d.status = "successful" <;> simp [mapStatus, hsucc]
            · left; simp [hid]

/-- C7: for every verified webhook whose reference resolves to a payment,
the stored status becomes exactly the binary mapping of the upstream status
string: the literal "successful" maps to SUCCESSFUL and every other value
maps to FAILED. -/
theorem c7_status_mapping (hm : List Nat → List Nat) (sig : Option (List Nat))
    (raw : List Nat) (d : WebhookData) (s : AppState) (p : Payment)
    (hver : verifyWebhookSignature hm sig raw = .ok true)
    (hfind : findByRef s.payments d.ref = some p) :
    (∃ q : Payment,
        findById (webhookRoute hm sig raw (some d) s).2.1.payments p.id = some q
        ∧ q.status = mapStatus d.status)
    ∧ (mapStatus d.status = .SUCCESSFUL ↔ d.status = "successful")
    ∧ (d.status ≠ "successful" → mapStatus d.status = .FAILED) := by
  refine ⟨?_, ?_, ?_⟩
  · rw [webhookRoute_state_on_found hm sig raw d s p hver hfind]
    exact findById_after_set s.payments p (mapStatus d.status)
      (List.mem_of_find?_eq_some hfind)
  · constructor
    · intro h
      by_contra hne
      simp [mapStatus, hne] at h
    · intro h
      simp [mapStatus, h]
  · intro h
    simp [mapStatus, h]

/-- Witness for C7 at a concrete non-"successful" upstream status. -/
theorem c7_witness :
    (∃ q : Payment,
        findById (webhookRoute (fun _ => [3]) (some [3]) [] (some ⟨"r3", "rejected"⟩)
            ⟨[⟨"p3", 200, .PENDING, some "r3"⟩], []⟩).2.1.payments "p3" = some q
        ∧ q.status = mapStatus "rejected")
    ∧ (mapStatus "rejected" = .SUCCESSFUL ↔ ("rejected" : String) = "successful")
    ∧ (("rejected" : String) ≠ "successful" → mapStatus "rejected" = .FAILED) :=
  c7_status_mapping (fun _ => [3]) (some [3]) [] ⟨"r3", "rejected"⟩
    ⟨[⟨"p3", 200, .PENDING, some "r3"⟩], []⟩ ⟨"p3", 200, .PENDING, some "r3"⟩
    (by decide) (by decide)

/-- C8: applying the webhook route twice with the same verified payload to
the same reference is idempotent: the second run returns the whole app state
exactly as the first run left it and pushes no notification (the
registration was consumed and deleted by the first run) — its trace is only
the harmless re-write of the same terminal status. -/
theorem c8_resolve_notify_idempotent (hm : List Nat → List Nat)
    (sig : Option (List Nat)) (raw : List Nat) (d : WebhookData) (s : AppState)
    (p : Payment) (sid : String)
    (hver : verifyWebhookSignature hm sig raw = .ok true)
    (hfind : findByRef s.payments d.ref = some p)
    (hsock : lookupSocket s.sockets p.id = some sid) :
    webhookRoute hm sig raw (some d) (webhookRoute hm sig raw (some d) s).2.1
      = (.processed200, (webhookRoute hm sig raw (some d) s).2.1,
         [TraceEv.write p.id (mapStatus d.status)]) := by
  have hroute1 : webhookRoute hm sig raw (some d) s
      = (.processed200,
         ⟨setStatusById s.payments p.id (mapStatus d.status), deleteSocket s.sockets p.id⟩,
         [TraceEv.write p.id (mapStatus d.status),
          TraceEv.notify sid (mapStatus d.status)]) := by
    simp [webhookRoute, hver, hfind, hsock]
  rw [hroute1]
  have hfind2 : findByRef (setStatusById s.payments p.id (mapStatus d.status)) d.ref
      = some ⟨p.id, p.amount, mapStatus d.status, p.paypackRef⟩ := by
    rw [find?_setStatusById_ref, hfind]
    simp
  have hsock2 : lookupSocket (deleteSocket s.sockets p.id) p.id = none :=
    lookupSocket_deleteSocket s.sockets p.id
  simp [webhookRoute, hver, hfind2, hsock2, setStatusById_idem]

/-- Witness for C8 at a concrete registered payment. -/
theorem c8_witness :
    webhookRoute (fun _ => [1]) (some [1]) [] (some ⟨"r1", "successful"⟩)
        (webhookRoute (fun _ => [1]) (some [1]) [] (some ⟨"r1", "successful"⟩)
          ⟨[⟨"p1", 500, .PENDING, some "r1"⟩], [("p1", "sock1")]⟩).2.1
      = (.processed200,
         (webhookRoute (fun _ => [1]) (some [1]) [] (some ⟨"r1", "successful"⟩)
           ⟨[⟨"p1", 500, .PENDING, some "r1"⟩], [("p1", "sock1")]⟩).2.1,
         [TraceEv.write "p1" (mapStatus "successful")]) :=
  c8_resolve_notify_idempotent (fun _ => [1]) (some [1]) [] ⟨"r1", "successful"⟩
    ⟨[⟨"p1", 500, .PENDING, some "r1"⟩], [("p1", "sock1")]⟩
    ⟨"p1", 500, .PENDING, some "r1"⟩ "sock1" (by decide) (by decide) (by decide)

/-- C9: every execution of the webhook route that emits a notification
performs the store write of the same terminal status strictly before the
notify event in its trace, and the post-state already records that status
for the written payment — an observer reading the payment after receiving
the push sees the terminal status. -/
theorem c9_write_before_notify (hm : List Nat → List Nat) (sig : Option (List Nat))
    (raw : List Nat) (payload : Option WebhookData) (s : AppState)
    (sid : String) (st : PStatus)
    (hmem : TraceEv.notify sid st ∈ (webhookRoute hm sig raw payload s).2.2) :
    ∃ pid : String,
      (webhookRoute hm sig raw payload s).2.2
        = [TraceEv.write pid st, TraceEv.notify sid st]
      ∧ ∃ q : Payment,
          findById (webhookRoute hm sig raw payload s).2.1.payments pid = some q
          ∧ q.status = st := by
  cases hv : verifyWebhookSignature hm sig raw with
  | error e => simp [webhookRoute, hv] at hmem
  | ok b =>
    cases b with
    | false => simp [webhookRoute, hv] at hmem
    | true =>
      cases payload with
      | none => simp [webhookRoute, hv] at hmem
      | some d =>
        cases hf : findByRef s.payments d.ref with
        | none => simp [webhookRoute, hv, hf] at hmem
        | some p =>
          cases hs2 : lookupSocket s.sockets p.id with
          | none => simp [webhookRoute, hv, hf, hs2] at hmem
          | some sid2 =>
            simp [webhookRoute, hv, hf, hs2] at hmem
            obtain ⟨h1, h2⟩ := hmem
            refine ⟨p.id, ?_, ?_⟩
            · simp [webhookRoute, hv, hf, hs2, h1, h2]
            · rw [webhookRoute_state_on_found hm sig raw d s p hv hf, h2]
              exact findById_after_set s.payments p (mapStatus d.status)
                (List.mem_of_find?_eq_some hf)

/-- Witness for C9 at a concrete registered payment. -/
theorem c9_witness :
    ∃ pid : String,
      (webhookRoute (fun _ => [2]) (some [2]) [] (some ⟨"r2", "successful"⟩)
          ⟨[⟨"p2", 500, .PENDING, some "r2"⟩], [("p2", "sockA")]⟩).2.2
        = [TraceEv.write pid .SUCCESSFUL, TraceEv.notify "sockA" .SUCCESSFUL]
      ∧ ∃ q : Payment,
          findById (webhookRoute (fun _ => [2]) (some [2]) [] (some ⟨"r2", "successful"⟩)
              ⟨[⟨"p2", 500, .PENDING, some "r2"⟩], [("p2", "sockA")]⟩).2.1.payments pid
            = some q
          ∧ q.status = .SUCCESSFUL :=
  c9_write_before_notify (fun _ => [2]) (some [2]) [] (some ⟨"r2", "successful"⟩)
    ⟨[⟨"p2", 500, .PENDING, some "r2"⟩], [("p2", "sockA")]⟩ "sockA" .SUCCESSFUL
    (by decide)

/-- C6: a webhook whose signature header is absent fails verification with a
`SignatureError` (the 403 `INVALID_SIGNATURE` `ApiError` thrown before the
try block) and the webhook route rejects the request (500 via its catch)
without touching any state and without emitting any event; it is never
treated as valid. -/
theorem c6_missing_signature_rejected (hm : List Nat → List Nat) (raw : List Nat)
    (payload : Option WebhookData) (s : AppState) :
    verifyWebhookSignature hm none raw =
      .error ⟨403, "Missing webhook signature.", "INVALID_SIGNATURE", none⟩
    ∧ webhookRoute hm none raw payload s = (.error500, s, []) :=
  ⟨rfl, rfl⟩

/-- C2: `verifyWebhookSignature` returns `true` iff the signature equals the
base64 HMAC-SHA256 digest of the exact raw body (`hm rawBody`, the digest
being non-empty as every base64 HMAC digest is); mutating any single byte of
the correct signature, or any single byte of the body whose digest thereby
changes (HMAC collision-resistance, not provable for the abstract digest
function), turns the result into a verification failure. -/
theorem c2_verify_hmac_iff_and_mutation (hm : List Nat → List Nat) (sig raw : List Nat)
    (hne : hm raw ≠ []) (i j v w : Nat)
    (hi : i < (hm raw).length) (hv : v ≠ (hm raw).get ⟨i, hi⟩)
    (hw : hm (raw.set j w) ≠ hm raw) :
    (verifyWebhookSignature hm (some sig) raw = .ok true ↔ sig = hm raw)
    ∧ verifyWebhookSignature hm (some ((hm raw).set i v)) raw =
        .error ⟨500, "Could not verify webhook signature.", "SIGNATURE_VERIFICATION_FAILED", none⟩
    ∧ verifyWebhookSignature hm (some (hm raw)) (raw.set j w) =
        .error ⟨500, "Could not verify webhook signature.", "SIGNATURE_VERIFICATION_FAILED", none⟩ := by
  refine ⟨verify_ok_true_iff hm sig raw hne, ?_, ?_⟩
  · have hlen : ((hm raw).set i v).length = (hm raw).length := by simp
    have hne2 : (hm raw).set i v ≠ [] := by
      intro h
      rw [h] at hlen
      exact hne (List.length_eq_zero.mp hlen.symm)
    exact verify_mismatch_error500 hm _ raw hne2 (set_ne_of_ne (hm raw) i v hi hv)
  · exact verify_mismatch_error500 hm _ (raw.set j w) hne (Ne.symm hw)

/-- Witness for C2 at a concrete digest function and concrete inputs. -/
theorem c2_witness :
    (verifyWebhookSignature (fun l => 7 :: l) (some [7, 1, 2]) [1, 2] = .ok true ↔
        [7, 1, 2] = (fun l => 7 :: l) [1, 2])
    ∧ verifyWebhookSignature (fun l => 7 :: l)
        (some (((fun l => 7 :: l) [1, 2]).set 0 9)) [1, 2] =
        .error ⟨500, "Could not verify webhook signature.", "SIGNATURE_VERIFICATION_FAILED", none⟩
    ∧ verifyWebhookSignature (fun l => 7 :: l) (some ((fun l => 7 :: l) [1, 2]))
        ([1, 2].set 0 5) =
        .error ⟨500, "Could not verify webhook signature.", "SIGNATURE_VERIFICATION_FAILED", none⟩ :=
  c2_verify_hmac_iff_and_mutation (fun l => 7 :: l) [7, 1, 2] [1, 2] (by decide)
    0 0 9 5 (by decide) (by decide) (by decide)

/-- C10: `verifyWebhookSignature` never returns `false` — a present but
mismatched signature raises the 401 error inside the try block, which the
catch rewraps into the 500 `SIGNATURE_VERIFICATION_FAILED` error — so the
webhook route's `false` branch (its 401 "Invalid signature." response) is
unreachable on every input. -/
theorem c10_verify_never_false_and_500 (hm : List Nat → List Nat)
    (sig raw : List Nat) (sig2 : Option (List Nat)) (raw2 : List Nat)
    (payload : Option WebhookData) (s : AppState)
    (hsig : sig ≠ []) (hmm : sig ≠ hm raw) :
    verifyWebhookSignature hm (some sig) raw =
      .error ⟨500, "Could not verify webhook signature.", "SIGNATURE_VERIFICATION_FAILED", none⟩
    ∧ verifyWebhookSignature hm sig2 raw2 ≠ .ok false
    ∧ (webhookRoute hm sig2 raw2 payload s).1 ≠ .invalidSig401 := by
  refine ⟨verify_mismatch_error500 hm sig raw hsig hmm,
    verify_never_ok_false hm sig2 raw2, ?_⟩
  cases hv : verifyWebhookSignature hm sig2 raw2 with
  | error e => simp [webhookRoute, hv]
  | ok b =>
    cases b with
    | false => exact absurd hv (verify_never_ok_false hm sig2 raw2)
    | true =>
      cases payload with
      | none => simp [webhookRoute, hv]
      | some d =>
        cases hf : findByRef s.payments d.ref with
        | none => simp [webhookRoute, hv, hf]
        | some p =>
          cases hs2 : lookupSocket s.sockets p.id with
          | none => simp [webhookRoute, hv, hf, hs2]
          | some sid => simp [webhookRoute, hv, hf, hs2]

/-- Witness for C10 at concrete inputs. -/
theorem c10_witness :
    verifyWebhookSignature (fun _ => [1]) (some [2]) [] =
      .error ⟨500, "Could not verify webhook signature.", "SIGNATURE_VERIFICATION_FAILED", none⟩
    ∧ verifyWebhookSignature (fun _ => [1]) (some [9]) [] ≠ .ok false
    ∧ (webhookRoute (fun _ => [1]) (some [9]) [] none ⟨[], []⟩).1 ≠ .invalidSig401 :=
  c10_verify_never_false_and_500 (fun _ => [1]) [2] [] (some [9]) [] none ⟨[], []⟩
    (by decide) (by decide)

end Paypack
